import Mathlib

/-!
Shallow embedding of the notebook-importer repository:
`notebooks_as_modules.py` (a meta-path finder/loader that imports
Jupyter notebooks as modules) and `compute.py` (worker bootstrap).

Python strings are Lean `String`; filesystem and runtime effects are
explicit parameters (a `FileSystem` oracle, a `PyRuntime` record for the
external compile-and-execute collaborator, explicit session state).
-/

/-- Embeds `notebook_for_module` (notebooks_as_modules.py line 13):
the candidate document path is the module name with the fixed
".ipynb" extension appended. -/
def notebook_for_module (name_module : String) : String :=
  name_module ++ ".ipynb"

/-- Oracle for the filesystem calls made by the source:
`readable` embeds `os.access(path, os.R_OK)` and `realpath` embeds
`os.path.realpath(path)`. Both act on path strings as given. -/
structure FileSystem where
  readable : String → Bool
  realpath : String → String

/-- Embeds the part of `importlib.machinery.ModuleSpec` the source uses:
`spec_from_loader(name_full, self, origin=...)` records a name and an
origin (the loader is always the importer itself and is omitted). -/
structure ModuleSpec where
  name : String
  origin : String
deriving Repr, DecidableEq

/-- Embeds the part of a Python module object the source touches:
`module.__name__`, `module.__spec__.origin`, and `module.__dict__`
(the namespace, modelled as an association list mapping names to
values of type V, most recent binding first). -/
structure PyModule (V : Type) where
  name : String
  origin : Option String
  dict : List (String × V)
deriving Repr, DecidableEq

/-- The module namespace mapping: association list, most recent
binding first (rebinding shadows). -/
abbrev Env (V : Type) := List (String × V)

/-- Embeds `NotebookImporter.find_spec` (lines 22-26): build the
candidate path from the name, return a spec with the canonicized
origin when the candidate is readable, otherwise no match. The
`path` and `target` arguments are accepted and ignored, as in the
source. -/
def find_spec (fs : FileSystem) (name_full : String)
    (path : Option (List String)) (target : Option Unit) : Option ModuleSpec :=
  let name_notebook := notebook_for_module name_full
  if fs.readable name_notebook then
    some (ModuleSpec.mk name_full (fs.realpath name_notebook))
  else
    none

/-- Embeds `NotebookImporter.create_module` (lines 28-29): always
returns None, deferring module creation to the runtime default. -/
def create_module (V : Type) (spec1 : ModuleSpec) : Option (PyModule V) :=
  none

/-- Modelled from the spec: the data-model sentence states that the
resolved, absolute, canonical path is the one used BOTH for the
access-permission check and as the origin tag. This variant follows
those words (checking readability of the canonicized path), to be
compared with `find_spec` as translated from the source. -/
def find_spec_data_model (fs : FileSystem) (name_full : String)
    (path : Option (List String)) (target : Option Unit) : Option ModuleSpec :=
  let canonical := fs.realpath (notebook_for_module name_full)
  if fs.readable canonical then
    some (ModuleSpec.mk name_full canonical)
  else
    none

/-- Concrete filesystem where the relative candidate is readable but
the canonicized path string is not recognised by the access oracle. -/
def fsC5 : FileSystem :=
  FileSystem.mk (fun p => p == "m.ipynb") (fun p => "/abs/" ++ p)

/-- Concrete filesystem with identity canonicizer (trivially
consistent through realpath). -/
def fsId : FileSystem :=
  FileSystem.mk (fun p => p == "u.ipynb") (fun p => p)

/-- Concrete filesystem on which nothing is readable. -/
def fsNone : FileSystem :=
  FileSystem.mk (fun _ => false) (fun p => p)

/-- A cell record of the parsed document, as the loader consumes it:
`cell.cell_type`, `cell.source`, and the tag list the loader extracts
with `cell.metadata.get("tags", [])` (the rest of the metadata
mapping is never read by the source). -/
structure Cell where
  cell_type : String
  source : String
  tags : List String
deriving Repr, DecidableEq

/-- Embeds Python `str.strip()` on the characters the loader strips:
drop leading and trailing whitespace. Implemented structurally over
the character list so that concrete runs reduce in the kernel. -/
def pyStrip (s : String) : String :=
  String.mk (((s.data.dropWhile Char.isWhitespace).reverse.dropWhile
    Char.isWhitespace).reverse)

/-- Embeds `str.startswith("%")` for the single-character directive
marker: true exactly when the first character is the percent sign. -/
def pyStartsWithPercent (s : String) : Bool :=
  match s.data with
  | [] => false
  | c :: _ => c == '%'

/-- Embeds the cell-type test of the comprehension on line 36:
`c.cell_type == "code"`. -/
def Cell.isCode (c : Cell) : Bool :=
  c.cell_type == "code"

/-- Embeds the in-loop exclusion filter on line 37:
`not cell.source.strip().startswith("%") and "noimport" not in
cell.metadata.get("tags", [])`. -/
def Cell.survivesFilter (c : Cell) : Bool :=
  !(pyStartsWithPercent (pyStrip c.source)) && !(c.tags.contains "noimport")

/-- Embeds Python `enumerate(xs, start)`, used on line 36 with
start = 1 over the code cells. -/
def pyEnumerate (start : Nat) : List α → List (Nat × α)
  | [] => []
  | x :: xs => (start, x) :: pyEnumerate (start + 1) xs

/-- The external compile-and-execute collaborators of the loader,
abstracted: `compile src label` embeds `compile(cell.source,
name_cell, "exec")` (may raise), `exec code env` embeds `exec(code,
module.__dict__)` and returns the mutated namespace together with an
optional raised error, and `session` embeds `get_ipython()` together
with `ipython.compile.cache`: when present it maps a session state
and a source text to the generated label and the updated session
state (the diagnostic cache registration). -/
structure PyRuntime (Code Err V S : Type) where
  compile : String → String → Except Err Code
  exec : Code → Env V → Env V × Option Err
  session : Option (S → String → String × S)

/-- Embeds lines 38-41: the provenance label is the default
f-string `name_notebook ++ " Cell " ++ num_cell` unless an
interactive session is present, in which case the label generated by
the session caching facility replaces it (and the session state is
updated by the registration). -/
def cellLabel (rt : PyRuntime Code Err V S) (name_notebook : String)
    (num_cell : Nat) (src : String) (s : S) : String × S :=
  match rt.session with
  | some cacheFn => cacheFn s src
  | none => (name_notebook ++ " Cell " ++ toString num_cell, s)

/-- Embeds the loop body of `exec_module` (lines 36-43) over the
already-enumerated code cells: skip a cell failing the exclusion
filter, otherwise build the label, compile, and execute against the
threaded namespace, stopping at the first raised error (which is
returned unchanged together with the namespace and session state at
that point). -/
def execCells (rt : PyRuntime Code Err V S) (name_notebook : String) :
    List (Nat × Cell) → Env V → S → (Env V × S) × Option Err
  | [], env, s => ((env, s), none)
  | (num_cell, cell) :: rest, env, s =>
    if cell.survivesFilter then
      let ls := cellLabel rt name_notebook num_cell cell.source s
      match rt.compile cell.source ls.1 with
      | Except.error e => ((env, ls.2), some e)
      | Except.ok code =>
        match rt.exec code env with
        | (env1, some e) => ((env1, ls.2), some e)
        | (env1, none) => execCells rt name_notebook rest env1 ls.2
    else
      execCells rt name_notebook rest env s

/-- Same loop body as `execCells` but with no exclusion filter:
every listed cell is labelled, compiled and executed. Used to state
which cells the loader actually compiles and executes. -/
def runCells (rt : PyRuntime Code Err V S) (name_notebook : String) :
    List (Nat × Cell) → Env V → S → (Env V × S) × Option Err
  | [], env, s => ((env, s), none)
  | (num_cell, cell) :: rest, env, s =>
    let ls := cellLabel rt name_notebook num_cell cell.source s
    match rt.compile cell.source ls.1 with
    | Except.error e => ((env, ls.2), some e)
    | Except.ok code =>
      match rt.exec code env with
      | (env1, some e) => ((env1, ls.2), some e)
      | (env1, none) => runCells rt name_notebook rest env1 ls.2

/-- Embeds `NotebookImporter.exec_module` (lines 31-43): re-derive
the notebook path from the module name, read the document through
the external reader (whose failure propagates with nothing
executed), filter the cells to the code cells, enumerate them from
1, and run the loop against the module namespace. -/
def exec_module (rt : PyRuntime Code Err V S)
    (read_notebook : String → Except Err (List Cell))
    (m : PyModule V) (s : S) : (Env V × S) × Option Err :=
  let name_notebook := notebook_for_module m.name
  match read_notebook name_notebook with
  | Except.error e => ((m.dict, s), some e)
  | Except.ok cells =>
    execCells rt name_notebook (pyEnumerate 1 (cells.filter Cell.isCode)) m.dict s

/-- Modelled from the spec: expressions of the small interpreter the
design notes prescribe for the external compile-and-execute
collaborator (section 9: a loop over assignment fragments producing
bindings into one environment). Atoms are integer literals and
variable references; the one operator is addition, enough for the
concrete scenario of section 8. -/
inductive PyExpr where
  | lit (n : Int)
  | var (x : String)
  | add (a b : PyExpr)
deriving Repr, DecidableEq

/-- Modelled from the spec: an assignment statement `lhs = rhs`, the
shape of every code fragment in the section 8 scenario. -/
structure PyStmt where
  lhs : String
  rhs : PyExpr
deriving Repr, DecidableEq

/-- Splits a character list at spaces (helper for the modelled
parser; structural so concrete runs reduce in the kernel). -/
def splitWordsAux : List Char → List Char → List String
  | [], acc => [String.mk acc.reverse]
  | c :: cs, acc =>
    if c == ' ' then String.mk acc.reverse :: splitWordsAux cs []
    else splitWordsAux cs (c :: acc)

/-- Space-separated words of a string, empty words dropped. -/
def pyWords (s : String) : List String :=
  (splitWordsAux s.data []).filter (fun w => w ≠ "")

/-- Digits to a natural number, most significant first. -/
def digitsToNatAux (acc : Nat) : List Char → Nat
  | [] => acc
  | c :: cs => digitsToNatAux (acc * 10 + (c.toNat - 48)) cs

/-- Modelled from the spec: parse one atom of the small interpreter
language — a literal when all characters are digits, otherwise a
variable reference. -/
def parseAtom (s : String) : Option PyExpr :=
  if s.data = [] then none
  else if s.data.all Char.isDigit then
    some (PyExpr.lit (Int.ofNat (digitsToNatAux 0 s.data)))
  else some (PyExpr.var s)

/-- Modelled from the spec: parse one assignment fragment, either
`x = a` or `x = a + b`; anything else is a syntax error (None). -/
def parseStmt (s : String) : Option PyStmt :=
  match pyWords s with
  | [x, "=", a] => (parseAtom a).map (PyStmt.mk x)
  | [x, "=", a, "+", b] =>
    match parseAtom a, parseAtom b with
    | some ea, some eb => some (PyStmt.mk x (PyExpr.add ea eb))
    | _, _ => none
  | _ => none

/-- Modelled from the spec: evaluate an expression against the
environment; an unbound variable reference fails (None). -/
def evalExpr (env : Env Int) : PyExpr → Option Int
  | PyExpr.lit n => some n
  | PyExpr.var x => env.lookup x
  | PyExpr.add a b =>
    match evalExpr env a, evalExpr env b with
    | some va, some vb => some (va + vb)
    | _, _ => none

/-- Modelled from the spec: the compile half of the collaborator —
a fragment that does not parse raises a syntax error carrying the
provenance label it was compiled under. -/
def miniCompile (src : String) (label : String) : Except String PyStmt :=
  match parseStmt src with
  | some st => Except.ok st
  | none => Except.error ("SyntaxError: " ++ label)

/-- Modelled from the spec: the execute half of the collaborator —
evaluate the right-hand side and bind the left-hand name in the
namespace; an unbound reference raises a name error and leaves the
namespace as it was. -/
def miniExec (st : PyStmt) (env : Env Int) : Env Int × Option String :=
  match evalExpr env st.rhs with
  | some v => ((st.lhs, v) :: env, none)
  | none => (env, some ("NameError: name not defined in cell binding " ++ st.lhs))

/-- The small-interpreter runtime with no interactive session. -/
def miniRT : PyRuntime PyStmt String Int Unit :=
  PyRuntime.mk miniCompile miniExec none

/-- The small-interpreter runtime with no session but a non-trivial
session-state type, to observe that the state is untouched. -/
def miniNoSessRT : PyRuntime PyStmt String Int (List String) :=
  PyRuntime.mk miniCompile miniExec none

/-- Modelled from the spec: the small-interpreter runtime with an
interactive session present whose diagnostic-caching facility
registers the source text (appending it to the session state) and
returns a generated input label. -/
def cachingSessionRT : PyRuntime PyStmt String Int (List String) :=
  PyRuntime.mk miniCompile miniExec
    (some (fun s src =>
      ("<session-input-" ++ toString (s.length + 1) ++ ">", s ++ [src])))

/-- The concrete scenario document of spec section 8, preceded by a
non-code cell: a markdown cell, then code cells `x = 1`, the
directive-prefixed `%timeit x`, the noimport-tagged `y = x + 1`, and
`z = x + 100`. -/
def util_cells : List Cell :=
  [ Cell.mk "markdown" "# utility notebook" [],
    Cell.mk "code" "x = 1" [],
    Cell.mk "code" "%timeit x" [],
    Cell.mk "code" "y = x + 1" ["noimport"],
    Cell.mk "code" "z = x + 100" [] ]

/-- A document whose third code cell references an unbound name, so
its execution raises; the fourth cell must then never run. -/
def bad_exec_cells : List Cell :=
  [ Cell.mk "code" "a = 1" [],
    Cell.mk "code" "b = a + 1" [],
    Cell.mk "code" "c = q + 1" [],
    Cell.mk "code" "d = 9" [] ]

/-- A document whose second code cell is not syntactically valid, so
its compilation raises; the third cell must then never run. -/
def bad_syntax_cells : List Cell :=
  [ Cell.mk "code" "a = 1" [],
    Cell.mk "code" "this is not valid" [],
    Cell.mk "code" "b = 2" [] ]

/-- Observation runtime for provenance labels, no session: compile
returns the pair of the label it was given and the source, and
execute appends that pair to the namespace, so a run records which
label each compiled cell was tagged with. -/
def labelTraceRT : PyRuntime (String × String) Unit String Unit :=
  PyRuntime.mk (fun src label => Except.ok (label, src))
    (fun c env => (env ++ [c], none)) none

/-- Observation runtime for provenance labels with an interactive
session present, generic in the session state and its caching
facility. -/
def labelTraceSessRT (S : Type) (f : S → String → String × S) :
    PyRuntime (String × String) Unit String S :=
  PyRuntime.mk (fun src label => Except.ok (label, src))
    (fun c env => (env ++ [c], none)) (some f)

/-- Declarative form of the labels a session caching facility
produces: register each source in order, pairing it with the label
the facility generated, threading the session state. -/
def sessionLabelTrace (S : Type) (f : S → String → String × S) :
    List String → S → List (String × String) × S
  | [], s => ([], s)
  | src :: rest, s =>
    let ls := f s src
    let tl := sessionLabelTrace S f rest ls.2
    ((ls.1, src) :: tl.1, tl.2)

/-- The per-process runtime state the bootstrap touches: the module
cache (`sys.modules` keys) and the resolver chain (`sys.meta_path`),
generic in the finder type. -/
structure RuntimeState (F : Type) where
  modules : List String
  meta_path : List F
deriving Repr, DecidableEq

/-- Modelled from the spec: the runtime import-cache semantics the
bootstrap relies on — an import runs the module body only when the
name is absent from the module cache, and records the name before
the body runs; a second import of the same name is a no-op. -/
def import_module (name : String) (body : RuntimeState F → RuntimeState F)
    (st : RuntimeState F) : RuntimeState F :=
  if st.modules.contains name then st
  else body (RuntimeState.mk (name :: st.modules) st.meta_path)

/-- Embeds the module-level effect of notebooks_as_modules.py on the
runtime state: line 46 appends one importer instance to the END of
the resolver chain. -/
def notebooks_as_modules_body (importer : F) (st : RuntimeState F) :
    RuntimeState F :=
  RuntimeState.mk st.modules (st.meta_path ++ [importer])

/-- Embeds `init_worker` (compute.py lines 6-7): the per-worker
initialization entry point just imports notebooks_as_modules. -/
def init_worker (importer : F) (st : RuntimeState F) : RuntimeState F :=
  import_module "notebooks_as_modules" (notebooks_as_modules_body importer) st

/-- First-match resolution over a finder chain: each finder is asked
in order and the first one returning a spec wins. -/
def resolve_chain (resolve : F → Option R) : List F → Option R
  | [] => none
  | f :: rest =>
    match resolve f with
    | some r => some r
    | none => resolve_chain resolve rest

/-- The cell loop decomposes over list append: if any cell of the
first segment raises, the run of the whole list equals the run of the
first segment alone (the error is returned verbatim and the second
segment is never reached); otherwise the second segment starts from
the namespace and session state the first produced. -/
theorem execCells_append (rt : PyRuntime Code Err V S) (nb : String)
    (xs ys : List (Nat × Cell)) (env : Env V) (s : S) :
    execCells rt nb (xs ++ ys) env s =
      match execCells rt nb xs env s with
      | (res, some e) => (res, some e)
      | ((env1, s1), none) => execCells rt nb ys env1 s1 := by
  induction xs generalizing env s with
  | nil => simp [execCells]
  | cons p rest ih =>
    obtain ⟨n, c⟩ := p
    by_cases hc : c.survivesFilter
    · simp only [List.cons_append, execCells, hc, if_true]
      cases hcomp : rt.compile c.source (cellLabel rt nb n c.source s).1 with
      | error e => simp [hcomp]
      | ok code =>
        cases hex : rt.exec code env with
        | mk env1 oe =>
          cases oe with
          | some e => simp [hcomp, hex]
          | none => simpa [hcomp, hex] using ih env1 (cellLabel rt nb n c.source s).2
    · simp only [List.cons_append, execCells, hc, if_false]
      exact ih env s

/-- The in-loop exclusion filter is equivalent to filtering the cell
list first and then labelling, compiling and executing every
remaining cell: the excluded cells never reach the compiler or the
executor. -/
theorem execCells_eq_runCells (rt : PyRuntime Code Err V S) (nb : String)
    (l : List (Nat × Cell)) (env : Env V) (s : S) :
    execCells rt nb l env s =
      runCells rt nb (l.filter (fun nc => nc.2.survivesFilter)) env s := by
  induction l generalizing env s with
  | nil => rfl
  | cons p rest ih =>
    obtain ⟨n, c⟩ := p
    by_cases hc : c.survivesFilter
    · simp only [execCells, runCells, List.filter_cons, hc, if_true]
      cases hcomp : rt.compile c.source (cellLabel rt nb n c.source s).1 with
      | error e => simp [runCells, hcomp]
      | ok code =>
        cases hex : rt.exec code env with
        | mk env1 oe =>
          cases oe with
          | some e => simp [runCells, hcomp, hex]
          | none => simp [runCells, hcomp, hex, ih]
    · simp only [execCells, List.filter_cons, hc, if_false]
      exact ih env s

/-- The cells reaching the loop body are, in order and with
multiplicity, exactly the cells satisfying the combined condition of
the claim (code type, no directive head after stripping, no
exclusion tag). -/
theorem map_snd_filter_pyEnumerate (p : α → Bool) (n : Nat) (l : List α) :
    ((pyEnumerate n l).filter (fun nc => p nc.2)).map Prod.snd = l.filter p := by
  induction l generalizing n with
  | nil => rfl
  | cons x xs ih =>
    by_cases hx : p x <;> simp [pyEnumerate, List.filter_cons, hx, ih]

/-- Composing the code-type filter, the enumeration and the in-loop
exclusion filter keeps, in order, exactly the cells satisfying the
combined condition of the claim. -/
theorem filter_pyEnumerate_eq (cells : List Cell) (n : Nat) :
    ((pyEnumerate n (cells.filter Cell.isCode)).filter
        (fun nc => nc.2.survivesFilter)).map Prod.snd =
      cells.filter (fun c => c.cell_type == "code" &&
        (!(pyStartsWithPercent (pyStrip c.source)) &&
          !(c.tags.contains "noimport"))) := by
  rw [map_snd_filter_pyEnumerate Cell.survivesFilter n, List.filter_filter]
  apply List.filter_congr
  intro c _
  simp only [Cell.isCode, Cell.survivesFilter]
  exact Bool.and_comm _ _

/-- Claim C1: the loader compiles and executes a cell if and only if
its type tag is code, its stripped source does not begin with the
directive prefix, and its tags do not contain "noimport" — the loop
over the enumerated code cells equals the unconditional
compile-and-execute loop over the filtered list, and that filtered
list consists, in order, of exactly the cells passing the combined
condition; excluded cells never reach the compiler of any runtime,
however invalid their content. -/
theorem claim1_filter_iff (Code Err V S : Type) (rt : PyRuntime Code Err V S)
    (nb : String) (cells : List Cell) (env : Env V) (s : S) :
    (execCells rt nb (pyEnumerate 1 (cells.filter Cell.isCode)) env s =
      runCells rt nb
        ((pyEnumerate 1 (cells.filter Cell.isCode)).filter
          (fun nc => nc.2.survivesFilter)) env s) ∧
    (((pyEnumerate 1 (cells.filter Cell.isCode)).filter
        (fun nc => nc.2.survivesFilter)).map Prod.snd =
      cells.filter (fun c => c.cell_type == "code" &&
        (!(pyStartsWithPercent (pyStrip c.source)) &&
          !(c.tags.contains "noimport")))) :=
  ⟨execCells_eq_runCells rt nb _ env s, filter_pyEnumerate_eq cells 1⟩

/-- Claim C2: surviving cells execute one at a time in document
order against the single shared namespace — a successful first cell
hands its namespace and session state to the rest of the loop — and
on the concrete two-definition scenario the load succeeds with the
later cell seeing the earlier binding: the final namespace binds x
to 1 (established by the first cell) and z to 101 (computed from x
by the last cell). -/
theorem claim2_sequential_shared_namespace :
    (∀ (Code Err V S : Type) (rt : PyRuntime Code Err V S) (nb : String)
        (p : Nat × Cell) (rest : List (Nat × Cell)) (env env1 : Env V) (s s1 : S),
      execCells rt nb [p] env s = ((env1, s1), none) →
        execCells rt nb (p :: rest) env s = execCells rt nb rest env1 s1) ∧
    (exec_module miniRT (fun _ => Except.ok util_cells)
        (PyModule.mk "util" none []) () =
      (([("z", 101), ("x", 1)], ()), none)) ∧
    (List.lookup "x" [("z", (101 : Int)), ("x", 1)] = some 1) ∧
    (List.lookup "z" [("z", (101 : Int)), ("x", 1)] = some 101) := by
  refine ⟨?_, by decide, by decide, by decide⟩
  intro Code Err V S rt nb p rest env env1 s s1 h
  have hap := execCells_append rt nb [p] rest env s
  rw [List.singleton_append] at hap
  rw [h] at hap
  simpa using hap

/-- Witness for C2: the threading step applied at the concrete
two-cell scenario, the hypothesis (the first cell succeeds binding
x to 1) discharged by evaluation. -/
theorem claim2_witness :
    execCells miniRT "util.ipynb"
        [(1, Cell.mk "code" "x = 1" []), (2, Cell.mk "code" "z = x + 100" [])]
        [] () =
      execCells miniRT "util.ipynb"
        [(2, Cell.mk "code" "z = x + 100" [])] [("x", 1)] () :=
  claim2_sequential_shared_namespace.1 PyStmt String Int Unit miniRT "util.ipynb"
    (1, Cell.mk "code" "x = 1" []) [(2, Cell.mk "code" "z = x + 100" [])]
    [] [("x", 1)] () () (by decide)

/-- Claim C3: a raise at any surviving cell aborts the load at that
cell — the run of an appended list stops at the first failing
segment with the error returned unchanged and the namespace as the
earlier cells left it — and concretely: an execution failure at the
third cell leaves a and b bound, never runs the fourth cell, and
surfaces the name error; a compile failure at the second cell leaves
a bound and surfaces the syntax error carrying the provenance
label. -/
theorem claim3_abort_at_failing_cell :
    (∀ (Code Err V S : Type) (rt : PyRuntime Code Err V S) (nb : String)
        (xs ys : List (Nat × Cell)) (env : Env V) (s : S),
      execCells rt nb (xs ++ ys) env s =
        match execCells rt nb xs env s with
        | (res, some e) => (res, some e)
        | ((env1, s1), none) => execCells rt nb ys env1 s1) ∧
    (exec_module miniRT (fun _ => Except.ok bad_exec_cells)
        (PyModule.mk "bad" none []) () =
      (([("b", 2), ("a", 1)], ()),
        some "NameError: name not defined in cell binding c")) ∧
    (exec_module miniRT (fun _ => Except.ok bad_syntax_cells)
        (PyModule.mk "bad2" none []) () =
      (([("a", 1)], ()), some "SyntaxError: bad2.ipynb Cell 2")) ∧
    (List.lookup "a" [("b", (2 : Int)), ("a", 1)] = some 1) ∧
    (List.lookup "d" [("b", (2 : Int)), ("a", 1)] = none) :=
  ⟨fun _ _ _ _ rt nb xs ys env s => execCells_append rt nb xs ys env s,
    by decide, by decide, by decide, by decide⟩

/-- Claim C4: for every module name string whose candidate path
(name plus ".ipynb") fails the access check, find_spec returns no
match (None); totality of the embedding reflects that no exception
is raised. -/
theorem claim4_no_match_when_unreadable (fs : FileSystem) (name : String)
    (path : Option (List String)) (target : Option Unit)
    (h : fs.readable (notebook_for_module name) = false) :
    find_spec fs name path target = none := by
  simp [find_spec, h]

/-- Witness for C4 at a concrete unreadable filesystem and an
arbitrary (dotted) module name. -/
theorem claim4_witness :
    fsNone.readable (notebook_for_module "pkg.mod") = false ∧
      find_spec fsNone "pkg.mod" none none = none :=
  ⟨rfl, claim4_no_match_when_unreadable fsNone "pkg.mod" none none rfl⟩

/-- Counterexample for C5: the source applies the access check to the
relative candidate path as given, not to its canonicized form, so the
data-model reading of the claim disagrees with the code on a
filesystem whose access oracle distinguishes the two strings. -/
theorem claim5_counterexample :
    find_spec fsC5 "m" none none ≠ find_spec_data_model fsC5 "m" none none := by
  decide

/-- Claim C5 (amended): when the candidate is readable, find_spec
returns a spec whose origin is the canonicized candidate path and
module creation is deferred (create_module always returns None); the
access check is applied to the relative candidate path as given, and
the data-model description coincides with the code exactly when the
access oracle reads the same through realpath. -/
theorem claim5_amended (fs : FileSystem) (name : String)
    (path : Option (List String)) (target : Option Unit) :
    (find_spec fs name path target =
      if fs.readable (notebook_for_module name) then
        some (ModuleSpec.mk name (fs.realpath (notebook_for_module name)))
      else none) ∧
    (∀ (V : Type) (spec1 : ModuleSpec), create_module V spec1 = none) ∧
    ((∀ q, fs.readable (fs.realpath q) = fs.readable q) →
      find_spec_data_model fs name path target = find_spec fs name path target) := by
  refine ⟨rfl, fun _ _ => rfl, fun hcons => ?_⟩
  simp [find_spec_data_model, find_spec, hcons]

/-- Witness for C5 (amended) at a concrete readable filesystem whose
canonicizer is the identity, discharging the consistency hypothesis. -/
theorem claim5_witness :
    (find_spec fsId "u" none none =
      if fsId.readable (notebook_for_module "u") then
        some (ModuleSpec.mk "u" (fsId.realpath (notebook_for_module "u")))
      else none) ∧
    create_module Int (ModuleSpec.mk "u" "u.ipynb") = none ∧
    find_spec_data_model fsId "u" none none = find_spec fsId "u" none none := by
  refine ⟨(claim5_amended fsId "u" none none).1, ?_, ?_⟩
  · exact (claim5_amended fsId "u" none none).2.1 Int (ModuleSpec.mk "u" "u.ipynb")
  · exact (claim5_amended fsId "u" none none).2.2 (fun q => rfl)

/-- Claim C10: the outcome of find_spec is independent of the path
and target arguments, and for any name the decision and the produced
spec depend only on the flat candidate string name ++ ".ipynb"
checked against the filesystem; a dotted name yields the flat
candidate with the extension appended. -/
theorem claim10_path_target_independent (fs : FileSystem) (name : String)
    (p1 p2 : Option (List String)) (t1 t2 : Option Unit) :
    (find_spec fs name p1 t1 = find_spec fs name p2 t2) ∧
    (find_spec fs name p1 t1 =
      if fs.readable (name ++ ".ipynb") then
        some (ModuleSpec.mk name (fs.realpath (name ++ ".ipynb")))
      else none) ∧
    notebook_for_module "pkg.mod" = "pkg.mod.ipynb" := by
  exact ⟨rfl, rfl, rfl⟩

/-- With no session, each surviving cell is compiled under the label
built from the notebook path and its enumeration index. -/
theorem execCells_labelTrace (nb : String) (l : List (Nat × Cell))
    (env : Env String) :
    execCells labelTraceRT nb l env () =
      ((env ++ (l.filter (fun nc => nc.2.survivesFilter)).map
          (fun nc => (nb ++ " Cell " ++ toString nc.1, nc.2.source)), ()),
        none) := by
  induction l generalizing env with
  | nil => simp [execCells]
  | cons p rest ih =>
    obtain ⟨n, c⟩ := p
    have hsess : labelTraceRT.session =
        (none : Option (Unit → String → String × Unit)) := rfl
    have hcomp : ∀ (src label : String),
        labelTraceRT.compile src label = Except.ok (label, src) := fun _ _ => rfl
    have hexec : ∀ (cd : String × String) (env : Env String),
        labelTraceRT.exec cd env = (env ++ [cd], none) := fun _ _ => rfl
    by_cases hc : c.survivesFilter
    · simp [execCells, hc, cellLabel, hsess, hcomp, hexec, List.filter_cons, ih]
    · simp [execCells, hc, List.filter_cons, ih]

/-- With a session present, each surviving cell is compiled under the
label generated by the session caching facility for its source text,
the state threading through the registrations in order. -/
theorem execCells_labelTraceSess (S : Type) (f : S → String → String × S)
    (nb : String) (l : List (Nat × Cell)) (env : Env String) (s : S) :
    execCells (labelTraceSessRT S f) nb l env s =
      ((env ++ (sessionLabelTrace S f
          ((l.filter (fun nc => nc.2.survivesFilter)).map
            (fun nc => nc.2.source)) s).1,
        (sessionLabelTrace S f
          ((l.filter (fun nc => nc.2.survivesFilter)).map
            (fun nc => nc.2.source)) s).2), none) := by
  induction l generalizing env s with
  | nil => simp [execCells, sessionLabelTrace]
  | cons p rest ih =>
    obtain ⟨n, c⟩ := p
    have hsess : (labelTraceSessRT S f).session = some f := rfl
    have hcomp : ∀ (src label : String),
        (labelTraceSessRT S f).compile src label = Except.ok (label, src) :=
      fun _ _ => rfl
    have hexec : ∀ (cd : String × String) (env : Env String),
        (labelTraceSessRT S f).exec cd env = (env ++ [cd], none) := fun _ _ => rfl
    by_cases hc : c.survivesFilter
    · simp [execCells, hc, cellLabel, hsess, hcomp, hexec, sessionLabelTrace,
        List.filter_cons, ih]
    · simp [execCells, hc, List.filter_cons, ih]

/-- Claim C6: the provenance label of each surviving cell combines
the document path with the 1-based index assigned over all code
cells before exclusion-filtering, in the form path ++ " Cell " ++ N;
when a session is present its generated label is reused instead (the
registration threading the session state); when no session exists the
loop proceeds with the default labels and no failure; concretely, on
the section 8 document the surviving cells are labelled Cell 1 and
Cell 4 (the skipped code cells still consumed indices 2 and 3, the
leading markdown cell consumed none). -/
theorem claim6_provenance_labels :
    (∀ (nb : String) (cells : List Cell) (env : Env String),
      execCells labelTraceRT nb (pyEnumerate 1 (cells.filter Cell.isCode))
          env () =
        ((env ++ ((pyEnumerate 1 (cells.filter Cell.isCode)).filter
            (fun nc => nc.2.survivesFilter)).map
            (fun nc => (nb ++ " Cell " ++ toString nc.1, nc.2.source)), ()),
          none)) ∧
    (∀ (S : Type) (f : S → String → String × S) (nb : String)
        (l : List (Nat × Cell)) (env : Env String) (s : S),
      execCells (labelTraceSessRT S f) nb l env s =
        ((env ++ (sessionLabelTrace S f
            ((l.filter (fun nc => nc.2.survivesFilter)).map
              (fun nc => nc.2.source)) s).1,
          (sessionLabelTrace S f
            ((l.filter (fun nc => nc.2.survivesFilter)).map
              (fun nc => nc.2.source)) s).2), none)) ∧
    (execCells labelTraceRT "util.ipynb"
        (pyEnumerate 1 (util_cells.filter Cell.isCode)) [] () =
      (([("util.ipynb Cell 1", "x = 1"), ("util.ipynb Cell 4", "z = x + 100")],
          ()), none)) :=
  ⟨fun nb cells env => execCells_labelTrace nb _ env,
    fun S f nb l env s => execCells_labelTraceSess S f nb l env s,
    by decide⟩

/-- Claim C7: initialization appends exactly one importer instance
to the END of the resolver chain (the module cache gaining the
module name), repeated invocation of the per-worker entry point is
idempotent (the second import is a no-op), and a duplicated trailing
finder would anyway be harmless under first-match resolution. -/
theorem claim7_bootstrap_append_idempotent :
    (∀ (F : Type) (imp : F) (st : RuntimeState F),
      st.modules.contains "notebooks_as_modules" = false →
        init_worker imp st =
          RuntimeState.mk ("notebooks_as_modules" :: st.modules)
            (st.meta_path ++ [imp])) ∧
    (∀ (F : Type) (imp : F) (st : RuntimeState F),
      init_worker imp (init_worker imp st) = init_worker imp st) ∧
    (∀ (F R : Type) (resolve : F → Option R) (xs : List F) (f : F),
      resolve_chain resolve (xs ++ [f, f]) = resolve_chain resolve (xs ++ [f])) := by
  refine ⟨?_, ?_, ?_⟩
  · intro F imp st h
    have h2 : "notebooks_as_modules" ∉ st.modules := by simpa using h
    simp [init_worker, import_module, h2, notebooks_as_modules_body]
  · intro F imp st
    by_cases h2 : "notebooks_as_modules" ∈ st.modules
    · simp [init_worker, import_module, h2]
    · simp [init_worker, import_module, h2, notebooks_as_modules_body]
  · intro F R resolve xs f
    induction xs with
    | nil => cases hr : resolve f <;> simp [resolve_chain, hr]
    | cons x xs ih => cases hr : resolve x <;> simp [resolve_chain, hr, ih]

/-- Witness for C7 at a concrete runtime state with two ordinary
finders and an empty module cache. -/
theorem claim7_witness :
    init_worker 99 (RuntimeState.mk [] [1, 2]) =
      RuntimeState.mk ["notebooks_as_modules"] [1, 2, 99] :=
  claim7_bootstrap_append_idempotent.1 Nat 99 (RuntimeState.mk [] [1, 2]) rfl

/-- With no interactive session, the session state component is
returned untouched by the cell loop. -/
theorem execCells_session_none (rt : PyRuntime Code Err V S)
    (h : rt.session = none) (nb : String) :
    ∀ (cells : List (Nat × Cell)) (env : Env V) (s : S),
      ((execCells rt nb cells env s).1).2 = s := by
  intro cells
  induction cells with
  | nil => intro env s; rfl
  | cons p rest ih =>
    intro env s
    obtain ⟨n, c⟩ := p
    by_cases hc : c.survivesFilter
    · simp only [execCells, hc, if_true, cellLabel, h]
      cases hcomp : rt.compile c.source (nb ++ " Cell " ++ toString n) with
      | error e => simp [hcomp]
      | ok code =>
        cases hex : rt.exec code env with
        | mk env1 oe =>
          cases oe with
          | some e => simp [hcomp, hex]
          | none => simp [hcomp, hex, ih]
    · simp only [execCells, hc, if_false]
      exact ih env s

/-- Counterexample for C8: with an interactive session present, a
successful load also mutates state outside the module namespace —
the session diagnostic cache is no longer empty after the run. -/
theorem claim8_counterexample :
    (execCells cachingSessionRT "util.ipynb"
        (pyEnumerate 1 (util_cells.filter Cell.isCode)) [] []).2 = none ∧
    ((execCells cachingSessionRT "util.ipynb"
        (pyEnumerate 1 (util_cells.filter Cell.isCode)) [] []).1).2 ≠
      ([] : List String) := by
  decide

/-- Claim C8 (amended): on the success path the only externally
observable effect is the accumulation of the surviving cells
bindings in the module namespace, EXCEPT that a present interactive
session additionally accumulates the surviving cells source texts in
its diagnostic cache: with no session the session-state component is
returned untouched by the loop, and with the caching session the
concrete load succeeds with exactly the two surviving sources
registered. -/
theorem claim8_amended_frame :
    (∀ (Code Err V S : Type) (rt : PyRuntime Code Err V S),
      rt.session = none →
        ∀ (nb : String) (cells : List (Nat × Cell)) (env : Env V) (s : S),
          ((execCells rt nb cells env s).1).2 = s) ∧
    (execCells cachingSessionRT "util.ipynb"
        (pyEnumerate 1 (util_cells.filter Cell.isCode)) [] [] =
      (([("z", 101), ("x", 1)], ["x = 1", "z = x + 100"]), none)) := by
  refine ⟨?_, by decide⟩
  intro Code Err V S rt h nb cells env s
  exact execCells_session_none rt h nb cells env s

/-- Witness for C8 (amended) at the sessionless small-interpreter
runtime with a marked session state. -/
theorem claim8_witness :
    ((execCells miniNoSessRT "util.ipynb"
        (pyEnumerate 1 (util_cells.filter Cell.isCode)) [] ["seed"]).1).2 =
      ["seed"] :=
  claim8_amended_frame.1 PyStmt String Int (List String) miniNoSessRT rfl
    "util.ipynb" (pyEnumerate 1 (util_cells.filter Cell.isCode)) [] ["seed"]

/-- Claim C9: Execute re-derives the document path solely from the
module name via the naming convention — the outcome is independent
of the recorded spec origin (two modules equal in name and namespace
load identically whatever their origins), and depends on the reader
only at the path name ++ ".ipynb"; the document is read before any
cell executes (a reader failure leaves the namespace untouched by
construction of the embedding). -/
theorem claim9_rederives_path_from_name :
    (∀ (Code Err V S : Type) (rt : PyRuntime Code Err V S)
        (rd : String → Except Err (List Cell)) (m1 m2 : PyModule V) (s : S),
      m1.name = m2.name → m1.dict = m2.dict →
        exec_module rt rd m1 s = exec_module rt rd m2 s) ∧
    (∀ (Code Err V S : Type) (rt : PyRuntime Code Err V S)
        (rd1 rd2 : String → Except Err (List Cell)) (m : PyModule V) (s : S),
      rd1 (notebook_for_module m.name) = rd2 (notebook_for_module m.name) →
        exec_module rt rd1 m s = exec_module rt rd2 m s) := by
  constructor
  · intro Code Err V S rt rd m1 m2 s hname hdict
    simp only [exec_module, hname, hdict]
  · intro Code Err V S rt rd1 rd2 m s h
    simp only [exec_module, h]

/-- Witness for C9: two modules named util with empty namespaces but
different recorded origins load identically, and two readers
agreeing at util.ipynb load identically. -/
theorem claim9_witness :
    (exec_module miniRT (fun _ => Except.ok util_cells)
        (PyModule.mk "util" (some "/a/util.ipynb") []) () =
      exec_module miniRT (fun _ => Except.ok util_cells)
        (PyModule.mk "util" (some "/b/util.ipynb") []) ()) ∧
    (exec_module miniRT (fun _ => Except.ok util_cells)
        (PyModule.mk "util" none []) () =
      exec_module miniRT
        (fun q => if q == "util.ipynb" then Except.ok util_cells
          else Except.error "unreadable")
        (PyModule.mk "util" none []) ()) :=
  ⟨claim9_rederives_path_from_name.1 PyStmt String Int Unit miniRT
      (fun _ => Except.ok util_cells)
      (PyModule.mk "util" (some "/a/util.ipynb") [])
      (PyModule.mk "util" (some "/b/util.ipynb") []) () rfl rfl,
    claim9_rederives_path_from_name.2 PyStmt String Int Unit miniRT
      (fun _ => Except.ok util_cells)
      (fun q => if q == "util.ipynb" then Except.ok util_cells
        else Except.error "unreadable")
      (PyModule.mk "util" none []) () rfl⟩
